import Mathlib

/-!
Shallow embedding of the UrbanRAIN_COUNTER zone visitor counter
(`src/zone_counter.py`, class `MultiSourceZoneVisitorCounter`) together with
theorems settling the frozen claims about it.

Conventions of the embedding:
* Python wall-clock timestamps (`datetime.datetime`) become rationals (`ℚ`)
  counting seconds; `total_seconds()` of a difference becomes subtraction.
* Python dicts become insertion-ordered association lists (`List (K × V)`)
  with `alookup` / `aset` / `aerase` mirroring indexing, item assignment and
  `del`.
* Mutation of `self` becomes explicit state passing: every method takes the
  relevant state and returns the updated state together with its return value.
* `datetime.datetime.now()` becomes an explicit `now : ℚ` parameter supplied
  at the call site where the Python code samples the clock.
* File persistence (`save_data`) and `print` logging are I/O-free no-ops and
  are omitted.
-/

namespace ZoneCounter

/-- Timestamps and durations: seconds as rationals. -/
abbrev Time := ℚ

section AssocList

variable {K V : Type} [DecidableEq K]

/-- Dictionary lookup, `d[k]` / `k in d`. -/
def alookup (k : K) : List (K × V) → Option V
  | [] => none
  | (k', v) :: rest => if k' = k then some v else alookup k rest

/-- Dictionary item assignment `d[k] = v`: replaces the value in place when
the key is present, otherwise appends (Python dicts are insertion ordered). -/
def aset (k : K) (v : V) : List (K × V) → List (K × V)
  | [] => [(k, v)]
  | (k', v') :: rest => if k' = k then (k, v) :: rest else (k', v') :: aset k v rest

/-- Dictionary deletion `del d[k]` (keys are unique in a dict). -/
def aerase (k : K) : List (K × V) → List (K × V)
  | [] => []
  | (k', v) :: rest => if k' = k then rest else (k', v) :: aerase k rest

end AssocList

/-- Python set-insert for lists used as insertion-ordered sets. -/
def insert_unique (x : Int) (l : List Int) : List Int :=
  if l.contains x then l else l ++ [x]

/-- One entry of a zone's `history` list: `{"id": ..., "action": ..., "time": ...}`. -/
structure HistEvent where
  id : Int
  action : String
  time : Time
deriving DecidableEq

/-- Persisted per-zone data `self.data[camera]["zones"][zone]`.  Rectangle
corners are the integer pixel `[x, y]` lists, modelled as pairs. -/
structure ZoneData where
  top_left : Int × Int
  bottom_right : Int × Int
  in_count : Nat
  out_count : Nat
  inside_ids : List Int
  history : List HistEvent
deriving DecidableEq

/-- Lifecycle values stored in a dwell record's `'state'` field
(`'inside'` / `'exiting'`). -/
inductive Lifecycle where
  | inside
  | exiting
deriving DecidableEq

/-- One entry of `self.person_dwell_tracker[camera][zone]`. -/
structure DwellRecord where
  entry_time : Time
  last_seen : Time
  counted_entry : Bool
  exit_time : Option Time
  state : Lifecycle
deriving DecidableEq

/-- One entry of `self.person_state_buffer[camera][zone]`:
`{'state': ..., 'count': ..., 'last_update': ...}`. -/
structure BufferData where
  state : Bool
  count : Nat
  last_update : Time
deriving DecidableEq

/-- Dictionary returned by `update_dwell_tracker`. -/
structure DwellInfo where
  action : String
  dwell_time : Time
  should_count : Bool
deriving DecidableEq

/-- Configuration attributes set in `__init__`: `zone_padding`,
`min_dwell_frames`, `min_dwell_time`, `exit_grace_time`. -/
structure Config where
  zone_padding : Int
  min_dwell_frames : Nat
  min_dwell_time : Time
  exit_grace_time : Time
deriving DecidableEq

/-- Defaults from `__init__`: padding 10 px, 3 frames, 10.0 s dwell, 10.0 s grace. -/
def defaultConfig : Config := ⟨10, 3, 10, 10⟩

/-- Detection tuples handed to `update_counts`: either a 5-tuple
`(id, x1, y1, x2, y2)` bounding box or a 3-tuple `(id, cx, cy)` centre point. -/
inductive PersonData where
  | bbox (id : Int) (x1 y1 x2 y2 : ℚ)
  | point (id : Int) (cx cy : ℚ)
deriving DecidableEq

/-- First tuple component `person_data[0]`. -/
def PersonData.pid : PersonData → Int
  | .bbox i _ _ _ _ => i
  | .point i _ _ => i

/-- Embeds `get_bottom_center_point` (lines 80-95): midpoint of the x-range
and the bottom edge y. -/
def get_bottom_center_point (x1 y1 x2 y2 : ℚ) : ℚ × ℚ :=
  ((x1 + x2) / 2, y2)

/-- Embeds `is_inside_zone_with_padding` (lines 136-162): shrink the zone
inward by `padding`; if that degenerates the rectangle, test against the
original rectangle; both tests are boundary inclusive. -/
def is_inside_zone_with_padding (padding : Int) (x y : ℚ)
    (top_left bottom_right : Int × Int) : Bool :=
  let padded_x1 := top_left.1 + padding
  let padded_y1 := top_left.2 + padding
  let padded_x2 := bottom_right.1 - padding
  let padded_y2 := bottom_right.2 - padding
  if padded_x1 ≥ padded_x2 ∨ padded_y1 ≥ padded_y2 then
    decide ((top_left.1 : ℚ) ≤ x ∧ x ≤ bottom_right.1 ∧
            (top_left.2 : ℚ) ≤ y ∧ y ≤ bottom_right.2)
  else
    decide ((padded_x1 : ℚ) ≤ x ∧ x ≤ padded_x2 ∧
            (padded_y1 : ℚ) ≤ y ∧ y ≤ padded_y2)

/-- Embeds the `"bottom_center"` branch of `is_person_in_zone`
(lines 176-189), the method `update_counts` always uses: a 5-tuple is tested
at its bottom-centre point, a 3-tuple at `(cx, cy + 75)` (the code estimates
the feet assuming a person height of about 150 pixels). -/
def is_person_in_zone (padding : Int) (pd : PersonData)
    (top_left bottom_right : Int × Int) : Bool :=
  match pd with
  | .bbox _ x1 y1 x2 y2 =>
    let p := get_bottom_center_point x1 y1 x2 y2
    is_inside_zone_with_padding padding p.1 p.2 top_left bottom_right
  | .point _ cx cy =>
    is_inside_zone_with_padding padding cx (cy + 75) top_left bottom_right

/-- Embeds `update_person_state_buffer` (lines 215-261) at the level of one
zone's buffer dictionary (the camera/zone levels in the Python code are only
lazily-created empty dicts).  Returns the updated buffer and the stability
boolean the method returns. -/
def update_person_state_buffer (min_dwell_frames : Nat)
    (buffer : List (Int × BufferData)) (person_id : Int) (is_inside : Bool)
    (now : Time) : List (Int × BufferData) × Bool :=
  match alookup person_id buffer with
  | none => (aset person_id ⟨is_inside, 1, now⟩ buffer, false)
  | some bd =>
    if bd.state ≠ is_inside then
      (aset person_id ⟨is_inside, 1, now⟩ buffer, false)
    else
      (aset person_id ⟨bd.state, bd.count + 1, now⟩ buffer,
       decide (bd.count + 1 ≥ min_dwell_frames))

/-- Embeds `update_dwell_tracker` (lines 263-360) at the level of one zone's
tracker dictionary.  Returns the updated tracker and the info dict.  A record
in state `exiting` always has `exit_time` set in the Python code; if it were
`None`, `current_time - None` would raise and the handler would return the
`'error'` dict without mutating, which the `none` branch mirrors. -/
def update_dwell_tracker (min_dwell_time exit_grace_time : Time)
    (tracker : List (Int × DwellRecord)) (person_id : Int) (is_inside : Bool)
    (now : Time) : List (Int × DwellRecord) × DwellInfo :=
  match alookup person_id tracker with
  | none =>
    if is_inside then
      (aset person_id ⟨now, now, false, none, .inside⟩ tracker,
       ⟨"entered", 0, false⟩)
    else
      (tracker, ⟨"none", 0, false⟩)
  | some r =>
    if is_inside then
      if r.state = .exiting then
        (aset person_id
          { r with state := .inside, exit_time := none, last_seen := now } tracker,
         ⟨"re_entered", 0, false⟩)
      else
        let r1 := { r with last_seen := now }
        let dwell := now - r1.entry_time
        if r1.counted_entry = false ∧ dwell ≥ min_dwell_time then
          (aset person_id { r1 with counted_entry := true } tracker,
           ⟨"qualified_entry", dwell, true⟩)
        else
          (aset person_id r1 tracker, ⟨"dwelling", dwell, false⟩)
    else
      if r.state = .inside then
        (aset person_id { r with state := .exiting, exit_time := some now } tracker,
         ⟨"exiting", now - r.entry_time, r.counted_entry⟩)
      else
        match r.exit_time with
        | some et =>
          if now - et ≥ exit_grace_time then
            (aerase person_id tracker,
             ⟨"confirmed_exit", et - r.entry_time, r.counted_entry⟩)
          else
            (tracker, ⟨"outside", 0, false⟩)
        | none => (tracker, ⟨"error", 0, false⟩)

/-- Whole mutable state of a `MultiSourceZoneVisitorCounter`: the persisted
`data` map (camera → zone → zone data; the only key of a camera's dict is
`"zones"`, so that level is flattened away) and the four tracking maps.
`person_zone_history` values are dicts that this module never populates. -/
structure CounterState where
  data : List (String × List (String × ZoneData))
  inside_zones : List (String × List (String × List Int))
  person_zone_history : List (String × List (String × List (Int × Unit)))
  person_state_buffer : List (String × List (String × List (Int × BufferData)))
  person_dwell_tracker : List (String × List (String × List (Int × DwellRecord)))
deriving DecidableEq

/-- Embeds `DEFAULT_ZONE_CONFIG` from `src/config.py`. -/
def DEFAULT_ZONE_CONFIG : List (String × ZoneData) :=
  [("zone1", ⟨(640, 360), (1280, 700), 0, 0, [], []⟩)]

/-- Embeds `cleanup_stale_buffers` (lines 362-410).  State-buffer entries are
removed when the person is not active or `now - last_update > 30` seconds.
Dwell-tracker entries: the Python code computes
`tracker_data.get('exit_time', tracker_data.get('last_seen'))`, and since the
`'exit_time'` key is always present (possibly `None`) the default is never
used, so `last_activity` is exactly the record's `exit_time`; an entry is
removed only when that is non-`None` and older than 2 minutes. -/
def cleanup_stale_buffers (s : CounterState) (camera_id : String)
    (active_person_ids : List Int) (now : Time) : CounterState :=
  match alookup camera_id s.person_state_buffer with
  | none => s
  | some zone_buffers =>
    let zone_buffers' := zone_buffers.map (fun zb =>
      (zb.1, zb.2.filter (fun e =>
        active_person_ids.contains e.1 && !(decide (now - e.2.last_update > 30)))))
    let s1 := { s with
      person_state_buffer := aset camera_id zone_buffers' s.person_state_buffer }
    match alookup camera_id s1.person_dwell_tracker with
    | none => s1
    | some zone_trackers =>
      let zone_trackers' := zone_trackers.map (fun zt =>
        (zt.1, zt.2.filter (fun e =>
          match e.2.exit_time with
          | some t => !(decide (now - t > 120))
          | none => true)))
      { s1 with
        person_dwell_tracker := aset camera_id zone_trackers' s1.person_dwell_tracker }

/-- Embeds `create_or_update_zone` (lines 608-660).  Coordinate inputs model
the raw request lists: an element is `none` when `int(x)` would raise.  A
conversion failure, a missing coordinate (IndexError, swallowed by the outer
handler) or a rectangle violating `top_left < bottom_right` on either axis is
rejected with `False` before any state is touched; otherwise the zone is
rewritten with the new rectangle, zeroed counts and empty history, and all
per-zone tracking sub-state is cleared.  The frame-bounds check only prints a
warning and has no effect. -/
def create_or_update_zone (s : CounterState) (camera_id zone : String)
    (top_left bottom_right : List (Option Int)) : Bool × CounterState :=
  match top_left.mapM id, bottom_right.mapM id with
  | some tl, some br =>
    match tl, br with
    | tlx :: tly :: _, brx :: bry :: _ =>
      if tlx ≥ brx ∨ tly ≥ bry then (false, s)
      else
        let s1 :=
          if (alookup camera_id s.data).isNone then
            { s with
              data := aset camera_id [] s.data,
              inside_zones := aset camera_id [] s.inside_zones,
              person_zone_history := aset camera_id [] s.person_zone_history,
              person_state_buffer := aset camera_id [] s.person_state_buffer,
              person_dwell_tracker := aset camera_id [] s.person_dwell_tracker }
          else s
        let zd : ZoneData := ⟨(tlx, tly), (brx, bry), 0, 0, [], []⟩
        (true,
         { s1 with
           data := aset camera_id
             (aset zone zd ((alookup camera_id s1.data).getD [])) s1.data,
           inside_zones := aset camera_id
             (aset zone [] ((alookup camera_id s1.inside_zones).getD []))
             s1.inside_zones,
           person_zone_history := aset camera_id
             (aset zone [] ((alookup camera_id s1.person_zone_history).getD []))
             s1.person_zone_history,
           person_state_buffer := aset camera_id
             (aset zone [] ((alookup camera_id s1.person_state_buffer).getD []))
             s1.person_state_buffer,
           person_dwell_tracker := aset camera_id
             (aset zone [] ((alookup camera_id s1.person_dwell_tracker).getD []))
             s1.person_dwell_tracker })
    | _, _ => (false, s)
  | _, _ => (false, s)

/-- Formalises the rejection condition of claim C8 on the raw request: some
coordinate fails integer conversion, a coordinate is missing, or the
converted rectangle violates `top_left < bottom_right` on either axis. -/
def rect_request_invalid (top_left bottom_right : List (Option Int)) : Bool :=
  match top_left.mapM id, bottom_right.mapM id with
  | some (tlx :: tly :: _), some (brx :: bry :: _) => decide (tlx ≥ brx ∨ tly ≥ bry)
  | _, _ => true

/-- Embeds lines 497-517 of `update_counts`: apply the collected qualified
entries and confirmed exits to a zone's persisted data.  Both history
timestamps are `timestamp_str`, i.e. the current processing time. -/
def apply_zone_counts (zd : ZoneData) (now : Time)
    (entries_to_count exits_to_count : List Int) : ZoneData :=
  let zd1 :=
    if entries_to_count ≠ [] then
      { zd with
        in_count := zd.in_count + entries_to_count.length,
        history := zd.history ++
          entries_to_count.map (fun p => ⟨p, "Entered (Qualified)", now⟩) }
    else zd
  if exits_to_count ≠ [] then
    { zd1 with
      out_count := zd1.out_count + exits_to_count.length,
      history := zd1.history ++
        exits_to_count.map (fun p => ⟨p, "Exited (Qualified)", now⟩) }
  else zd1

/-- Loop state of the per-person loop in `update_counts` (lines 455-483). -/
structure ZoneStep where
  buffer : List (Int × BufferData)
  tracker : List (Int × DwellRecord)
  inside : List Int
  entries : List Int
  exits : List Int
deriving DecidableEq

/-- Embeds one iteration of the per-person loop of `update_counts`
(lines 459-483): classify, debounce, and only when the state is stable run
the dwell tracker and collect `qualified_entry` / `confirmed_exit` events. -/
def process_person (cfg : Config) (now : Time) (top_left bottom_right : Int × Int)
    (st : ZoneStep) (pd : PersonData) : ZoneStep :=
  let person_id := pd.pid
  let is_inside := is_person_in_zone cfg.zone_padding pd top_left bottom_right
  let res := update_person_state_buffer cfg.min_dwell_frames st.buffer person_id
    is_inside now
  if res.2 then
    let inside' := if is_inside then insert_unique person_id st.inside else st.inside
    let tr := update_dwell_tracker cfg.min_dwell_time cfg.exit_grace_time
      st.tracker person_id is_inside now
    let entries' :=
      if tr.2.should_count ∧ tr.2.action = "qualified_entry" then
        st.entries ++ [person_id]
      else st.entries
    let exits' :=
      if tr.2.should_count ∧ tr.2.action = "confirmed_exit" then
        st.exits ++ [person_id]
      else st.exits
    ⟨res.1, tr.1, inside', entries', exits'⟩
  else
    ⟨res.1, st.tracker, st.inside, st.entries, st.exits⟩

/-- Embeds the lost-person loop of `update_counts` (lines 487-494): every
tracked person absent from the active-id set is fed a non-inside observation;
a resulting counted `confirmed_exit` is collected. -/
def process_lost (min_dwell_time exit_grace_time : Time) (now : Time)
    (active_person_ids : List Int) (tracker : List (Int × DwellRecord))
    (exits_to_count : List Int) : List (Int × DwellRecord) × List Int :=
  (tracker.map Prod.fst).foldl
    (fun acc person_id =>
      if active_person_ids.contains person_id then acc
      else
        let tr := update_dwell_tracker min_dwell_time exit_grace_time acc.1
          person_id false now
        (tr.1,
         if tr.2.should_count ∧ tr.2.action = "confirmed_exit" then
           acc.2 ++ [person_id]
         else acc.2))
    (tracker, exits_to_count)

/-- Embeds the body of the per-zone loop of `update_counts` (lines 439-521)
for one zone: process all detections, sweep lost persons, apply count and
history updates, and record the new occupancy snapshot. -/
def process_zone (cfg : Config) (now : Time) (detected_people : List PersonData)
    (active_person_ids : List Int) (zd : ZoneData)
    (buffer : List (Int × BufferData)) (tracker : List (Int × DwellRecord)) :
    ZoneData × List (Int × BufferData) × List (Int × DwellRecord) × List Int :=
  let st0 : ZoneStep := ⟨buffer, tracker, [], [], []⟩
  let st1 := detected_people.foldl
    (process_person cfg now zd.top_left zd.bottom_right) st0
  let lost := process_lost cfg.min_dwell_time cfg.exit_grace_time now
    active_person_ids st1.tracker st1.exits
  let zd1 := apply_zone_counts zd now st1.entries lost.2
  ({ zd1 with inside_ids := st1.inside }, st1.buffer, lost.1, st1.inside)

/-- Per-camera accumulator threaded through the zone loop of `update_counts`. -/
structure CamAcc where
  zones : List (String × ZoneData)
  buffers : List (String × List (Int × BufferData))
  trackers : List (String × List (Int × DwellRecord))
  histories : List (String × List (Int × Unit))
  insides : List (String × List Int)
deriving DecidableEq

/-- Embeds the zone loop of `update_counts` (lines 439-521): iterate over the
snapshot of zone names, lazily creating the per-zone tracking dicts (the
`person_zone_history` entry is created but never read) and writing each
zone's results back. -/
def process_zones (cfg : Config) (now : Time) (detected_people : List PersonData)
    (active_person_ids : List Int) : List String → CamAcc → CamAcc
  | [], acc => acc
  | z :: rest, acc =>
    match alookup z acc.zones with
    | none => process_zones cfg now detected_people active_person_ids rest acc
    | some zd =>
      let buffer := (alookup z acc.buffers).getD []
      let tracker := (alookup z acc.trackers).getD []
      let history := (alookup z acc.histories).getD []
      let r := process_zone cfg now detected_people active_person_ids zd buffer
        tracker
      process_zones cfg now detected_people active_person_ids rest
        ⟨aset z r.1 acc.zones, aset z r.2.1 acc.buffers,
         aset z r.2.2.1 acc.trackers, aset z history acc.histories,
         aset z r.2.2.2 acc.insides⟩

/-- Embeds `update_counts` (lines 412-528): provision an unknown camera with
the default zone configuration, compute the active-id set, run the stale
sweep, process every zone, and write all per-camera maps back.  The trailing
`save_data` call is persistence I/O and is omitted. -/
def update_counts (cfg : Config) (s : CounterState) (camera_id : String)
    (detected_people : List PersonData) (now : Time) : CounterState :=
  let s0 :=
    if (alookup camera_id s.data).isNone then
      { s with
        data := aset camera_id DEFAULT_ZONE_CONFIG s.data,
        inside_zones := aset camera_id [] s.inside_zones,
        person_zone_history := aset camera_id [] s.person_zone_history,
        person_state_buffer := aset camera_id [] s.person_state_buffer,
        person_dwell_tracker := aset camera_id [] s.person_dwell_tracker }
    else s
  let active_person_ids := detected_people.foldl
    (fun acc pd => insert_unique pd.pid acc) []
  let s1 := cleanup_stale_buffers s0 camera_id active_person_ids now
  let zones := (alookup camera_id s1.data).getD []
  let acc0 : CamAcc :=
    ⟨zones,
     (alookup camera_id s1.person_state_buffer).getD [],
     (alookup camera_id s1.person_dwell_tracker).getD [],
     (alookup camera_id s1.person_zone_history).getD [],
     (alookup camera_id s1.inside_zones).getD []⟩
  let acc1 := process_zones cfg now detected_people active_person_ids
    (zones.map Prod.fst) acc0
  { s1 with
    data := aset camera_id acc1.zones s1.data,
    person_state_buffer := aset camera_id acc1.buffers s1.person_state_buffer,
    person_dwell_tracker := aset camera_id acc1.trackers s1.person_dwell_tracker,
    person_zone_history := aset camera_id acc1.histories s1.person_zone_history,
    inside_zones := aset camera_id acc1.insides s1.inside_zones }

/-- Embeds `reset_zone_counts` (lines 530-562): on an unknown camera or zone
it declines; otherwise it zeroes the zone's counts and occupancy list,
preserves its rectangle and clears the per-zone tracking sub-state. -/
def reset_zone_counts (s : CounterState) (camera_id zone : String) :
    Bool × CounterState :=
  match alookup camera_id s.data with
  | none => (false, s)
  | some zones =>
    match alookup zone zones with
    | none => (false, s)
    | some zd =>
      let zd1 := { zd with in_count := 0, out_count := 0, inside_ids := [] }
      let clear : CounterState → CounterState := fun st =>
        { st with
          inside_zones :=
            match alookup camera_id st.inside_zones with
            | some m =>
              if (alookup zone m).isSome then
                aset camera_id (aset zone [] m) st.inside_zones
              else st.inside_zones
            | none => st.inside_zones,
          person_zone_history :=
            match alookup camera_id st.person_zone_history with
            | some m =>
              if (alookup zone m).isSome then
                aset camera_id (aset zone [] m) st.person_zone_history
              else st.person_zone_history
            | none => st.person_zone_history,
          person_state_buffer :=
            match alookup camera_id st.person_state_buffer with
            | some m =>
              if (alookup zone m).isSome then
                aset camera_id (aset zone [] m) st.person_state_buffer
              else st.person_state_buffer
            | none => st.person_state_buffer,
          person_dwell_tracker :=
            match alookup camera_id st.person_dwell_tracker with
            | some m =>
              if (alookup zone m).isSome then
                aset camera_id (aset zone [] m) st.person_dwell_tracker
              else st.person_dwell_tracker
            | none => st.person_dwell_tracker }
      (true, clear { s with data := aset camera_id (aset zone zd1 zones) s.data })

/-- Iterates `update_dwell_tracker` for one person over a list of
(containment, timestamp) observations, collecting the emitted info dicts.
Used to reason about a whole dwell session. -/
def run_dwell (min_dwell_time exit_grace_time : Time)
    (tracker : List (Int × DwellRecord)) (person_id : Int) :
    List (Bool × Time) → List (Int × DwellRecord) × List DwellInfo
  | [] => (tracker, [])
  | (b, t) :: rest =>
    let step := update_dwell_tracker min_dwell_time exit_grace_time tracker
      person_id b t
    let r := run_dwell min_dwell_time exit_grace_time step.1 person_id rest
    (r.1, step.2 :: r.2)

/-- Count monotonicity between two zone-data values. -/
def countsLe (zd zd' : ZoneData) : Prop :=
  zd.in_count ≤ zd'.in_count ∧ zd.out_count ≤ zd'.out_count

/-- Pointwise count monotonicity between two zone maps. -/
def zonesLe (m m' : List (String × ZoneData)) : Prop :=
  ∀ z zd, alookup z m = some zd →
    ∃ zd', alookup z m' = some zd' ∧ countsLe zd zd'

/-- Counter state with one camera `"c"` whose zone `"z"` already has
`in_count = 5`, `out_count = 3` and a non-empty history; input for the C1
counterexample. -/
def c1_state : CounterState :=
  { data := [("c", [("z",
      ⟨(0, 0), (10, 10), 5, 3, [2], [⟨2, "Entered (Qualified)", 1⟩]⟩)])],
    inside_zones := [("c", [("z", [2])])],
    person_zone_history := [("c", [("z", [])])],
    person_state_buffer := [("c", [("z", [])])],
    person_dwell_tracker := [("c", [("z", [])])] }

/-- Dwell record in state `exiting` since time `et`, entered at time 0 and
already counted; input for the C3 counterexample. -/
def c3_record (et : Time) : DwellRecord := ⟨0, 0, true, some et, .exiting⟩

/-- Counter state with camera `"c"`, zone `"z"` and person 7 pending exit
confirmation since time `et`; input for the C3 counterexample. -/
def c3_state (et : Time) : CounterState :=
  { data := [("c", [("z", ⟨(0, 0), (100, 100), 1, 0, [], []⟩)])],
    inside_zones := [("c", [("z", [])])],
    person_zone_history := [("c", [("z", [])])],
    person_state_buffer := [("c", [("z", [])])],
    person_dwell_tracker := [("c", [("z", [(7, c3_record et)])])] }

/-- Dwell record still in state `inside`, last seen at time 0; input for the
C6 failing input. -/
def c6_record : DwellRecord := ⟨0, 0, false, none, .inside⟩

/-- Counter state holding only the stale inside record of person 7; input
for the C6 failing input. -/
def c6_state : CounterState :=
  { data := [("c", [("z", ⟨(0, 0), (100, 100), 0, 0, [], []⟩)])],
    inside_zones := [("c", [("z", [])])],
    person_zone_history := [("c", [("z", [])])],
    person_state_buffer := [("c", [("z", [])])],
    person_dwell_tracker := [("c", [("z", [(7, c6_record)])])] }

/-! ## Theorems -/

theorem alookup_aset_self {K V : Type} [DecidableEq K] (k : K) (v : V)
    (l : List (K × V)) : alookup k (aset k v l) = some v := by
  induction l with
  | nil => simp [aset, alookup]
  | cons p rest ih =>
    by_cases h : p.1 = k
    · simp [aset, h, alookup]
    · simp [aset, h, alookup, ih]

theorem alookup_aset_ne {K V : Type} [DecidableEq K] (k k' : K) (v : V)
    (l : List (K × V)) (h : k' ≠ k) :
    alookup k' (aset k v l) = alookup k' l := by
  induction l with
  | nil => simp [aset, alookup, Ne.symm h]
  | cons p rest ih =>
    by_cases hp : p.1 = k
    · simp [aset, alookup, hp, Ne.symm h]
    · simp only [aset, if_neg hp]
      by_cases hp' : p.1 = k'
      · simp [alookup, hp']
      · simp [alookup, hp', ih]

theorem dwell_step_inside_counted (md eg now : Time)
    (tracker : List (Int × DwellRecord)) (pid : Int) (r : DwellRecord)
    (hr : alookup pid tracker = some r) (hs : r.state = .inside)
    (hc : r.counted_entry = true) :
    update_dwell_tracker md eg tracker pid true now =
      (aset pid { r with last_seen := now } tracker,
       ⟨"dwelling", now - r.entry_time, false⟩) := by
  simp [update_dwell_tracker, hr, hs, hc]

theorem dwell_step_inside_low (md eg now : Time)
    (tracker : List (Int × DwellRecord)) (pid : Int) (r : DwellRecord)
    (hr : alookup pid tracker = some r) (hs : r.state = .inside)
    (hc : r.counted_entry = false) (hd : ¬ now - r.entry_time ≥ md) :
    update_dwell_tracker md eg tracker pid true now =
      (aset pid { r with last_seen := now } tracker,
       ⟨"dwelling", now - r.entry_time, false⟩) := by
  simp [update_dwell_tracker, hr, hs, hc, hd]

theorem dwell_step_inside_qualify (md eg now : Time)
    (tracker : List (Int × DwellRecord)) (pid : Int) (r : DwellRecord)
    (hr : alookup pid tracker = some r) (hs : r.state = .inside)
    (hc : r.counted_entry = false) (hd : now - r.entry_time ≥ md) :
    update_dwell_tracker md eg tracker pid true now =
      (aset pid { r with last_seen := now, counted_entry := true } tracker,
       ⟨"qualified_entry", now - r.entry_time, true⟩) := by
  simp [update_dwell_tracker, hr, hs, hc, hd]

theorem run_dwell_counted_no_qualified (md eg : Time) (pid : Int)
    (steps : List (Bool × Time)) :
    ∀ (tracker : List (Int × DwellRecord)) (r : DwellRecord),
      (∀ p ∈ steps, p.1 = true) → alookup pid tracker = some r →
      r.state = .inside → r.counted_entry = true →
      ((run_dwell md eg tracker pid steps).2.filter
        (fun i => i.action = "qualified_entry")).length = 0 := by
  induction steps with
  | nil => intro tracker r _ _ _ _; simp [run_dwell]
  | cons p rest ih =>
    intro tracker r hall hr hs hc
    obtain ⟨b, t⟩ := p
    have hb : b = true := hall (b, t) (by simp)
    subst hb
    have hstep := dwell_step_inside_counted md eg t tracker pid r hr hs hc
    have hrec := ih (aset pid { r with last_seen := t } tracker)
      { r with last_seen := t } (fun q hq => hall q (by simp [hq]))
      (alookup_aset_self pid _ tracker) hs hc
    simp [run_dwell, hstep, hrec]

theorem run_dwell_inside_at_most_one (md eg : Time) (pid : Int)
    (steps : List (Bool × Time)) :
    ∀ (tracker : List (Int × DwellRecord)) (r : DwellRecord),
      (∀ p ∈ steps, p.1 = true) → alookup pid tracker = some r →
      r.state = .inside →
      ((run_dwell md eg tracker pid steps).2.filter
        (fun i => i.action = "qualified_entry")).length ≤ 1 := by
  induction steps with
  | nil => intro tracker r _ _ _; simp [run_dwell]
  | cons p rest ih =>
    intro tracker r hall hr hs
    obtain ⟨b, t⟩ := p
    have hb : b = true := hall (b, t) (by simp)
    subst hb
    by_cases hc : r.counted_entry = true
    · have h0 := run_dwell_counted_no_qualified md eg pid ((true, t) :: rest)
        tracker r hall hr hs hc
      omega
    · have hc' : r.counted_entry = false := by
        cases h : r.counted_entry
        · rfl
        · exact absurd h hc
      by_cases hd : t - r.entry_time ≥ md
      · have hstep := dwell_step_inside_qualify md eg t tracker pid r hr hs hc' hd
        have hrec := run_dwell_counted_no_qualified md eg pid rest
          (aset pid { r with last_seen := t, counted_entry := true } tracker)
          { r with last_seen := t, counted_entry := true }
          (fun q hq => hall q (by simp [hq]))
          (alookup_aset_self pid _ tracker) hs rfl
        simp [run_dwell, hstep, hrec]
      · have hstep := dwell_step_inside_low md eg t tracker pid r hr hs hc' hd
        have hrec := ih (aset pid { r with last_seen := t } tracker)
          { r with last_seen := t } (fun q hq => hall q (by simp [hq]))
          (alookup_aset_self pid _ tracker) hs
        simp only [run_dwell, hstep]
        simpa using hrec

/-- C7: for every point `(x, y)`, every zone rectangle with `top_left`
strictly below `bottom_right` on both axes and padding `P ≥ 0`, the
containment classifier `is_inside_zone_with_padding` performs the inclusive
boundary test against the rectangle shrunk inward by `P` on all four sides,
and against the original unpadded rectangle when the shrunken one is
degenerate (`left ≥ right` or `top ≥ bottom`).  The embedded classifier is a
total pure function, so it raises nothing and mutates nothing. -/
theorem is_inside_zone_with_padding_spec (P : Int) (x y : ℚ)
    (top_left bottom_right : Int × Int) (hP : 0 ≤ P)
    (hv : top_left.1 < bottom_right.1 ∧ top_left.2 < bottom_right.2) :
    (¬(top_left.1 + P ≥ bottom_right.1 - P ∨
        top_left.2 + P ≥ bottom_right.2 - P) →
      (is_inside_zone_with_padding P x y top_left bottom_right = true ↔
        (((top_left.1 + P : Int) : ℚ) ≤ x ∧
         x ≤ ((bottom_right.1 - P : Int) : ℚ) ∧
         ((top_left.2 + P : Int) : ℚ) ≤ y ∧
         y ≤ ((bottom_right.2 - P : Int) : ℚ)))) ∧
    ((top_left.1 + P ≥ bottom_right.1 - P ∨
        top_left.2 + P ≥ bottom_right.2 - P) →
      (is_inside_zone_with_padding P x y top_left bottom_right = true ↔
        ((top_left.1 : ℚ) ≤ x ∧ x ≤ (bottom_right.1 : ℚ) ∧
         (top_left.2 : ℚ) ≤ y ∧ y ≤ (bottom_right.2 : ℚ)))) := by
  constructor <;> intro h
  · simp only [is_inside_zone_with_padding, if_neg h]
    simp
  · simp only [is_inside_zone_with_padding, if_pos h]
    simp

theorem is_inside_zone_with_padding_spec_witness :
    is_inside_zone_with_padding 10 50 50 (0, 0) (100, 100) = true :=
  ((is_inside_zone_with_padding_spec 10 50 50 (0, 0) (100, 100) (by decide)
      (by decide)).1 (by decide)).mpr (by norm_num)

/-- C10: a 3-tuple observation `(person_id, x, y)` classified with the
default `bottom_center` method is tested at the offset point `(x, y + 75)`
(the code estimates the feet assuming a person height of about 150 pixels),
so a raw point can be counted inside a zone whose rectangle lies entirely
below it: with the default 10-pixel padding, the point `(50, 40)` is
classified inside the zone `(0, 100)`-`(200, 300)` although `40 < 100`. -/
theorem is_person_in_zone_point_offset :
    (∀ (P pid : Int) (x y : ℚ) (top_left bottom_right : Int × Int),
      is_person_in_zone P (.point pid x y) top_left bottom_right =
        is_inside_zone_with_padding P x (y + 75) top_left bottom_right) ∧
    (is_person_in_zone 10 (.point 1 50 40) (0, 100) (200, 300) = true ∧
     (40 : ℚ) < 100) := by
  refine ⟨fun P pid x y tl br => rfl,
    by norm_num [is_person_in_zone, is_inside_zone_with_padding], by norm_num⟩

/-- C5: behaviour of the debounce filter `update_person_state_buffer` for one
(camera, zone, person) cell: a first observation creates the record with
`count = 1` and reports not-stable; an observation differing from the stored
state resets the count to 1, stores the new value and reports not-stable; a
matching observation increments the count and reports stable exactly when the
incremented count reaches `min_dwell_frames` (default 3); in every branch the
stored `last_update` becomes the current time. -/
theorem update_person_state_buffer_spec (threshold : Nat) (now : Time)
    (buffer : List (Int × BufferData)) (pid : Int) (raw : Bool) :
    (alookup pid buffer = none →
      update_person_state_buffer threshold buffer pid raw now =
        (aset pid ⟨raw, 1, now⟩ buffer, false)) ∧
    (∀ bd, alookup pid buffer = some bd → bd.state ≠ raw →
      update_person_state_buffer threshold buffer pid raw now =
        (aset pid ⟨raw, 1, now⟩ buffer, false)) ∧
    (∀ bd, alookup pid buffer = some bd → bd.state = raw →
      update_person_state_buffer threshold buffer pid raw now =
        (aset pid ⟨bd.state, bd.count + 1, now⟩ buffer,
         decide (bd.count + 1 ≥ threshold))) := by
  refine ⟨fun h => ?_, fun bd h hne => ?_, fun bd h heq => ?_⟩
  · simp [update_person_state_buffer, h]
  · simp [update_person_state_buffer, h, hne]
  · simp [update_person_state_buffer, h, heq]

theorem update_person_state_buffer_spec_witness :
    update_person_state_buffer 3 [(7, ⟨true, 2, 1⟩)] 7 true 2 =
      (aset 7 ⟨true, 2 + 1, 2⟩ [(7, ⟨true, 2, 1⟩)], decide (2 + 1 ≥ 3)) :=
  (update_person_state_buffer_spec 3 2 [(7, ⟨true, 2, 1⟩)] 7 true).2.2
    ⟨true, 2, 1⟩ rfl rfl

/-- C4: a dwell record in state `Exiting` processed with a stable-inside
signal returns to state `Inside` with `exit_time` cleared to `none` and only
`last_seen` refreshed: the structure update leaves `entry_time` and
`counted_entry` untouched, the emitted `re_entered` info has
`should_count = false`, and applying an empty event batch to a zone changes
neither `in_count` nor `out_count` nor `history`. -/
theorem dwell_reentry_spec (md eg now : Time)
    (tracker : List (Int × DwellRecord)) (pid : Int) (r : DwellRecord)
    (hr : alookup pid tracker = some r) (hs : r.state = .exiting) :
    update_dwell_tracker md eg tracker pid true now =
      (aset pid { r with state := .inside, exit_time := none, last_seen := now }
        tracker,
       ⟨"re_entered", 0, false⟩) ∧
    (∀ zd, apply_zone_counts zd now [] [] = zd) := by
  constructor
  · simp [update_dwell_tracker, hr, hs]
  · intro zd; simp [apply_zone_counts]

theorem dwell_reentry_spec_witness :
    update_dwell_tracker 10 10 [(7, ⟨0, 3, true, some 4, .exiting⟩)] 7 true 6 =
      (aset 7 ⟨0, 6, true, none, .inside⟩ [(7, ⟨0, 3, true, some 4, .exiting⟩)],
       ⟨"re_entered", 0, false⟩) :=
  (dwell_reentry_spec 10 10 6 [(7, ⟨0, 3, true, some 4, .exiting⟩)] 7
    ⟨0, 3, true, some 4, .exiting⟩ rfl rfl).1

/-- C2: for a dwell record in state `Inside` processed with a stable-inside
signal: (1) if `counted_entry` is false and `now - entry_time ≥
min_dwell_time`, the step sets `counted_entry := true` and emits
`qualified_entry`; (2) if already counted, it emits `dwelling` and no event;
(3) no `qualified_entry` is emitted while the dwell time is strictly below
`min_dwell_time`; (4) one collected qualified entry increments the zone's
`in_count` by exactly 1 and appends exactly one `Entered (Qualified)` history
event; (5) over any continuous inside period, at most one `qualified_entry`
is ever emitted. -/
theorem dwell_qualified_entry_spec (md eg now : Time)
    (tracker : List (Int × DwellRecord)) (pid : Int) (r : DwellRecord)
    (hr : alookup pid tracker = some r) (hs : r.state = .inside) :
    (r.counted_entry = false → now - r.entry_time ≥ md →
      update_dwell_tracker md eg tracker pid true now =
        (aset pid { r with last_seen := now, counted_entry := true } tracker,
         ⟨"qualified_entry", now - r.entry_time, true⟩)) ∧
    (r.counted_entry = true →
      update_dwell_tracker md eg tracker pid true now =
        (aset pid { r with last_seen := now } tracker,
         ⟨"dwelling", now - r.entry_time, false⟩)) ∧
    (now - r.entry_time < md →
      (update_dwell_tracker md eg tracker pid true now).2.action ≠
        "qualified_entry") ∧
    (∀ zd, apply_zone_counts zd now [pid] [] =
      { zd with in_count := zd.in_count + 1,
                history := zd.history ++ [⟨pid, "Entered (Qualified)", now⟩] }) ∧
    (∀ steps : List (Bool × Time), (∀ p ∈ steps, p.1 = true) →
      ((run_dwell md eg tracker pid steps).2.filter
        (fun i => i.action = "qualified_entry")).length ≤ 1) := by
  refine ⟨fun hc hd => dwell_step_inside_qualify md eg now tracker pid r hr hs hc hd,
    fun hc => dwell_step_inside_counted md eg now tracker pid r hr hs hc,
    fun hlt => ?_, fun zd => ?_,
    fun steps hall => run_dwell_inside_at_most_one md eg pid steps tracker r hall hr hs⟩
  · by_cases hc : r.counted_entry = true
    · have hstep := dwell_step_inside_counted md eg now tracker pid r hr hs hc
      simp [hstep]
    · have hc' : r.counted_entry = false := by
        cases h : r.counted_entry
        · rfl
        · exact absurd h hc
      have hstep := dwell_step_inside_low md eg now tracker pid r hr hs hc'
        (not_le.mpr hlt)
      simp [hstep]
  · simp [apply_zone_counts]

theorem dwell_qualified_entry_spec_witness :
    update_dwell_tracker 10 10 [(7, ⟨0, 0, false, none, .inside⟩)] 7 true 12 =
      (aset 7 ⟨0, 12, true, none, .inside⟩ [(7, ⟨0, 0, false, none, .inside⟩)],
       ⟨"qualified_entry", 12 - 0, true⟩) :=
  (dwell_qualified_entry_spec 10 10 12 [(7, ⟨0, 0, false, none, .inside⟩)] 7
    ⟨0, 0, false, none, .inside⟩ rfl rfl).1 rfl (by norm_num)

theorem lifecycle_exiting_ne_inside : Lifecycle.exiting ≠ Lifecycle.inside := by
  decide

theorem dwell_step_confirmed_exit (md eg now et : Time)
    (tracker : List (Int × DwellRecord)) (pid : Int) (r : DwellRecord)
    (hr : alookup pid tracker = some r) (hs : r.state = .exiting)
    (he : r.exit_time = some et) (hg : now - et ≥ eg) :
    update_dwell_tracker md eg tracker pid false now =
      (aerase pid tracker,
       ⟨"confirmed_exit", et - r.entry_time, r.counted_entry⟩) := by
  simp [update_dwell_tracker, hr, hs, he, hg, lifecycle_exiting_ne_inside]

/-- C3 (amended): for a dwell record in state `Exiting` processed with a
stable-outside signal where `now - exit_time ≥ exit_grace_time`: the record
is deleted regardless of its counted flag and the emitted `confirmed_exit`
carries `should_count = counted_entry`; the lost-person sweep collects the
exit exactly when `counted_entry` was true; one collected exit increments
`out_count` by 1 and appends exactly one `Exited (Qualified)` history event,
whose timestamp is the current processing time `now` (not a timestamp
derived from the record's `exit_time`); when nothing was collected the zone
data is unchanged. -/
theorem dwell_confirmed_exit_spec (md eg now et : Time)
    (tracker : List (Int × DwellRecord)) (pid : Int) (r : DwellRecord)
    (hr : alookup pid tracker = some r) (hs : r.state = .exiting)
    (he : r.exit_time = some et) (hg : now - et ≥ eg) :
    update_dwell_tracker md eg tracker pid false now =
      (aerase pid tracker,
       ⟨"confirmed_exit", et - r.entry_time, r.counted_entry⟩) ∧
    (∀ exits_acc, process_lost md eg now [] [(pid, r)] exits_acc =
      ([], if r.counted_entry = true then exits_acc ++ [pid] else exits_acc)) ∧
    (∀ zd, apply_zone_counts zd now [] [pid] =
      { zd with out_count := zd.out_count + 1,
                history := zd.history ++ [⟨pid, "Exited (Qualified)", now⟩] }) ∧
    (∀ zd, apply_zone_counts zd now [] [] = zd) := by
  refine ⟨dwell_step_confirmed_exit md eg now et tracker pid r hr hs he hg,
    fun exits_acc => ?_, fun zd => ?_, fun zd => ?_⟩
  · have hstep := dwell_step_confirmed_exit md eg now et [(pid, r)] pid r
      (by simp [alookup]) hs he hg
    cases hc : r.counted_entry <;>
      simp [process_lost, hstep, aerase, hc]
  · simp [apply_zone_counts]
  · simp [apply_zone_counts]

theorem dwell_confirmed_exit_spec_witness :
    update_dwell_tracker 10 10 [(7, ⟨0, 3, true, some 4, .exiting⟩)] 7 false 15 =
      (aerase 7 [(7, ⟨0, 3, true, some 4, .exiting⟩)],
       ⟨"confirmed_exit", 4 - 0, true⟩) :=
  (dwell_confirmed_exit_spec 10 10 15 4 [(7, ⟨0, 3, true, some 4, .exiting⟩)] 7
    ⟨0, 3, true, some 4, .exiting⟩ rfl rfl rfl (by norm_num)).1

/-- C3 counterexample: the claim as stated says the `Exited` history event
carries a timestamp derived from the record's `exit_time`.  Running the full
`update_counts` at processing time 20 on two states that differ only in the
record's `exit_time` (2 versus 5) appends in both cases the history event
with timestamp 20, the processing time — the recorded timestamp does not
depend on `exit_time` and differs from both exit times. -/
theorem confirmed_exit_timestamp_counterexample :
    ((alookup "z" ((alookup "c"
        (update_counts defaultConfig (c3_state 2) "c" [] 20).data).getD [])).map
      (fun zd => zd.history) = some [⟨7, "Exited (Qualified)", 20⟩]) ∧
    ((alookup "z" ((alookup "c"
        (update_counts defaultConfig (c3_state 5) "c" [] 20).data).getD [])).map
      (fun zd => zd.history) = some [⟨7, "Exited (Qualified)", 20⟩]) ∧
    (c3_record 2).exit_time = some 2 ∧ (c3_record 5).exit_time = some 5 ∧
    (20 : ℚ) ≠ 2 ∧ (20 : ℚ) ≠ 5 := by
  refine ⟨?_, ?_, rfl, rfl, by norm_num, by norm_num⟩ <;>
    norm_num [update_counts, cleanup_stale_buffers, process_zones, process_zone,
      process_person, process_lost, update_dwell_tracker, apply_zone_counts,
      alookup, aset, aerase, insert_unique, c3_state, c3_record, defaultConfig,
      DEFAULT_ZONE_CONFIG, lifecycle_exiting_ne_inside]

/-- C1 (amended): `create_or_update_zone` with a valid rectangle always
(re)writes the zone as a fresh zone: the new rectangle with `in_count = 0`,
`out_count = 0`, empty `inside_ids` and empty `history`, whether or not the
zone previously existed — an update of an existing zone's rectangle resets
its counts and history just like a creation. -/
theorem create_or_update_zone_always_resets (s : CounterState)
    (camera_id zone : String) (top_left bottom_right : List (Option Int))
    (tlx tly brx bry : Int) (tlrest brrest : List Int)
    (h1 : top_left.mapM id = some (tlx :: tly :: tlrest))
    (h2 : bottom_right.mapM id = some (brx :: bry :: brrest))
    (h3 : tlx < brx) (h4 : tly < bry) :
    (create_or_update_zone s camera_id zone top_left bottom_right).1 = true ∧
    alookup zone ((alookup camera_id
        (create_or_update_zone s camera_id zone top_left
          bottom_right).2.data).getD [])
      = some ⟨(tlx, tly), (brx, bry), 0, 0, [], []⟩ := by
  have hcond : ¬(tlx ≥ brx ∨ tly ≥ bry) := by push_neg; exact ⟨h3, h4⟩
  simp only [create_or_update_zone, h1, h2]
  rw [if_neg hcond]
  exact ⟨rfl, by simp [alookup_aset_self]⟩

theorem create_or_update_zone_always_resets_witness :
    (create_or_update_zone ⟨[], [], [], [], []⟩ "c" "z" [some 0, some 0]
      [some 20, some 20]).1 = true ∧
    alookup "z" ((alookup "c" (create_or_update_zone ⟨[], [], [], [], []⟩ "c"
      "z" [some 0, some 0] [some 20, some 20]).2.data).getD []) =
      some ⟨(0, 0), (20, 20), 0, 0, [], []⟩ :=
  create_or_update_zone_always_resets ⟨[], [], [], [], []⟩ "c" "z"
    [some 0, some 0] [some 20, some 20] 0 0 20 20 [] [] rfl rfl
    (by decide) (by decide)

/-- C1 counterexample: the claim as stated says updating an existing zone's
rectangle preserves its counts and history.  On a state whose zone `"z"` has
`in_count = 5`, `out_count = 3` and one history event, updating the same
zone with a valid new rectangle succeeds but leaves the zone with zeroed
counts and empty history. -/
theorem create_or_update_zone_preserves_counterexample :
    (alookup "z" ((alookup "c" c1_state.data).getD [])).map
      (fun zd => (zd.in_count, zd.out_count, zd.history.length)) =
      some (5, 3, 1) ∧
    (create_or_update_zone c1_state "c" "z" [some 0, some 0]
      [some 20, some 20]).1 = true ∧
    (alookup "z" ((alookup "c" (create_or_update_zone c1_state "c" "z"
      [some 0, some 0] [some 20, some 20]).2.data).getD [])).map
      (fun zd => (zd.in_count, zd.out_count, zd.history)) = some (0, 0, []) ∧
    (5 : Nat) ≠ 0 :=
  ⟨rfl, rfl, rfl, by decide⟩

/-- C8: a `create_or_update_zone` request whose rectangle violates
`top_left < bottom_right` on either axis, or whose coordinates cannot be
converted to integers (or are missing), returns `False` and leaves the
entire counter state — zone map, counts and all tracking sub-state —
exactly as it was. -/
theorem create_or_update_zone_rejects_invalid (s : CounterState)
    (camera_id zone : String) (top_left bottom_right : List (Option Int))
    (h : rect_request_invalid top_left bottom_right = true) :
    create_or_update_zone s camera_id zone top_left bottom_right =
      (false, s) := by
  cases h1 : top_left.mapM id with
  | none => simp only [create_or_update_zone, h1]
  | some tl =>
    cases h2 : bottom_right.mapM id with
    | none => simp only [create_or_update_zone, h1, h2]
    | some br =>
      rcases tl with _ | ⟨tlx, _ | ⟨tly, tlrest⟩⟩
      · simp only [create_or_update_zone, h1, h2]
      · simp only [create_or_update_zone, h1, h2]
      · rcases br with _ | ⟨brx, _ | ⟨bry, brrest⟩⟩
        · simp only [create_or_update_zone, h1, h2]
        · simp only [create_or_update_zone, h1, h2]
        · have h' := h
          simp only [rect_request_invalid, h1, h2] at h'
          have hc : tlx ≥ brx ∨ tly ≥ bry := of_decide_eq_true h'
          simp only [create_or_update_zone, h1, h2]
          rw [if_pos hc]

theorem create_or_update_zone_rejects_invalid_witness :
    create_or_update_zone ⟨[], [], [], [], []⟩ "c" "z" [some 5, some 5]
      [some 5, some 9] = (false, ⟨[], [], [], [], []⟩) :=
  create_or_update_zone_rejects_invalid ⟨[], [], [], [], []⟩ "c" "z"
    [some 5, some 5] [some 5, some 9] (by decide)

/-- C6 (behaviour at the failing input): person 7's dwell record is in state
`Inside` with `last_seen` 10 minutes old — by the claim (and by the comment
in the code) its most recent activity is `last_seen`, far older than the
2-minute staleness window, so the sweep should remove it.  Because the code
reads `tracker_data.get('exit_time', ...)` and the `'exit_time'` key is
always present (here `None`), the record is never considered and survives
the sweep.  The sweep also leaves the persisted zone data (counts and
history) untouched. -/
theorem cleanup_keeps_stale_inside_record :
    c6_record.state = Lifecycle.inside ∧
    (600 : ℚ) - c6_record.last_seen > 120 ∧
    alookup "c" (cleanup_stale_buffers c6_state "c" [] 600).person_dwell_tracker
      = some [("z", [(7, c6_record)])] ∧
    (cleanup_stale_buffers c6_state "c" [] 600).data = c6_state.data := by
  exact ⟨rfl, by norm_num [c6_record], rfl, rfl⟩

theorem countsLe_refl (zd : ZoneData) : countsLe zd zd := by
  unfold countsLe
  exact ⟨le_refl _, le_refl _⟩

theorem countsLe_trans {a b c : ZoneData} (h1 : countsLe a b)
    (h2 : countsLe b c) : countsLe a c := by
  unfold countsLe at *
  exact ⟨le_trans h1.1 h2.1, le_trans h1.2 h2.2⟩

theorem apply_zone_counts_countsLe (zd : ZoneData) (now : Time)
    (entries exits : List Int) :
    countsLe zd (apply_zone_counts zd now entries exits) := by
  unfold apply_zone_counts countsLe
  by_cases he : entries ≠ [] <;> by_cases hx : exits ≠ [] <;> simp [he, hx]

theorem process_zone_countsLe (cfg : Config) (now : Time)
    (detected_people : List PersonData) (active_person_ids : List Int)
    (zd : ZoneData) (buffer : List (Int × BufferData))
    (tracker : List (Int × DwellRecord)) :
    countsLe zd
      (process_zone cfg now detected_people active_person_ids zd buffer
        tracker).1 := by
  have h := apply_zone_counts_countsLe zd now
    (detected_people.foldl (process_person cfg now zd.top_left zd.bottom_right)
      ⟨buffer, tracker, [], [], []⟩).entries
    (process_lost cfg.min_dwell_time cfg.exit_grace_time now active_person_ids
      (detected_people.foldl (process_person cfg now zd.top_left zd.bottom_right)
        ⟨buffer, tracker, [], [], []⟩).tracker
      (detected_people.foldl (process_person cfg now zd.top_left zd.bottom_right)
        ⟨buffer, tracker, [], [], []⟩).exits).2
  exact h

theorem zonesLe_refl (m : List (String × ZoneData)) : zonesLe m m :=
  fun _ zd h => ⟨zd, h, countsLe_refl zd⟩

theorem zonesLe_trans {a b c : List (String × ZoneData)} (h1 : zonesLe a b)
    (h2 : zonesLe b c) : zonesLe a c := by
  intro z zd h
  obtain ⟨zd', hb, l1⟩ := h1 z zd h
  obtain ⟨zd'', hcc, l2⟩ := h2 z zd' hb
  exact ⟨zd'', hcc, countsLe_trans l1 l2⟩

theorem zonesLe_aset (m : List (String × ZoneData)) (z : String)
    (zd0 zd' : ZoneData) (hm : alookup z m = some zd0)
    (hle : countsLe zd0 zd') : zonesLe m (aset z zd' m) := by
  intro z' zd h
  by_cases hz : z' = z
  · subst hz
    have hzd : zd = zd0 := by
      rw [hm] at h
      exact (Option.some.inj h).symm
    subst hzd
    exact ⟨zd', alookup_aset_self z' zd' m, hle⟩
  · refine ⟨zd, ?_, countsLe_refl zd⟩
    rw [alookup_aset_ne z z' zd' m hz]
    exact h

theorem process_zones_zonesLe (cfg : Config) (now : Time)
    (detected_people : List PersonData) (active_person_ids : List Int)
    (names : List String) :
    ∀ acc : CamAcc, zonesLe acc.zones
      (process_zones cfg now detected_people active_person_ids names acc).zones
    := by
  induction names with
  | nil => intro acc; exact zonesLe_refl _
  | cons z rest ih =>
    intro acc
    cases hz : alookup z acc.zones with
    | none =>
      simp only [process_zones, hz]
      exact ih acc
    | some zd =>
      simp only [process_zones, hz]
      have hstep := zonesLe_aset acc.zones z zd
        (process_zone cfg now detected_people active_person_ids zd
          ((alookup z acc.buffers).getD []) ((alookup z acc.trackers).getD [])).1
        hz
        (process_zone_countsLe cfg now detected_people active_person_ids zd
          ((alookup z acc.buffers).getD []) ((alookup z acc.trackers).getD []))
      exact zonesLe_trans hstep
        (ih ⟨aset z (process_zone cfg now detected_people active_person_ids zd
            ((alookup z acc.buffers).getD [])
            ((alookup z acc.trackers).getD [])).1 acc.zones,
          aset z (process_zone cfg now detected_people active_person_ids zd
            ((alookup z acc.buffers).getD [])
            ((alookup z acc.trackers).getD [])).2.1 acc.buffers,
          aset z (process_zone cfg now detected_people active_person_ids zd
            ((alookup z acc.buffers).getD [])
            ((alookup z acc.trackers).getD [])).2.2.1 acc.trackers,
          aset z ((alookup z acc.histories).getD []) acc.histories,
          aset z (process_zone cfg now detected_people active_person_ids zd
            ((alookup z acc.buffers).getD [])
            ((alookup z acc.trackers).getD [])).2.2.2 acc.insides⟩)

theorem cleanup_stale_buffers_data (s : CounterState) (camera_id : String)
    (active_person_ids : List Int) (now : Time) :
    (cleanup_stale_buffers s camera_id active_person_ids now).data = s.data := by
  unfold cleanup_stale_buffers
  split
  · rfl
  · dsimp only
    split <;> rfl

/-- C9: for every zone already present for any camera, a call to
`update_counts` (with any camera id, detection batch and time) never
decreases the zone's `in_count` or `out_count`: both counts after the call
are greater than or equal to their values before (counts are `Nat`s changed
only by adding the whole number of collected qualified-entry and
confirmed-exit events). -/
theorem update_counts_monotone (cfg : Config) (s : CounterState)
    (camera_id : String) (detected_people : List PersonData) (now : Time)
    (cam zone : String) (zones : List (String × ZoneData)) (zd : ZoneData)
    (h1 : alookup cam s.data = some zones)
    (h2 : alookup zone zones = some zd) :
    ∃ zones' zd',
      alookup cam (update_counts cfg s camera_id detected_people now).data =
        some zones' ∧
      alookup zone zones' = some zd' ∧
      zd.in_count ≤ zd'.in_count ∧ zd.out_count ≤ zd'.out_count := by
  by_cases hc : cam = camera_id
  · subst hc
    simp only [update_counts, h1, Option.isNone_some, Bool.false_eq_true,
      if_false, cleanup_stale_buffers_data, Option.getD_some,
      alookup_aset_self]
    have hmono := process_zones_zonesLe cfg now detected_people
      (detected_people.foldl (fun acc pd => insert_unique pd.pid acc) [])
      (zones.map Prod.fst)
      ⟨zones,
       (alookup cam (cleanup_stale_buffers s cam
         (detected_people.foldl (fun acc pd => insert_unique pd.pid acc) [])
         now).person_state_buffer).getD [],
       (alookup cam (cleanup_stale_buffers s cam
         (detected_people.foldl (fun acc pd => insert_unique pd.pid acc) [])
         now).person_dwell_tracker).getD [],
       (alookup cam (cleanup_stale_buffers s cam
         (detected_people.foldl (fun acc pd => insert_unique pd.pid acc) [])
         now).person_zone_history).getD [],
       (alookup cam (cleanup_stale_buffers s cam
         (detected_people.foldl (fun acc pd => insert_unique pd.pid acc) [])
         now).inside_zones).getD []⟩
    obtain ⟨zd', hl, hle⟩ := hmono zone zd h2
    unfold countsLe at hle
    exact ⟨_, zd', rfl, hl, hle.1, hle.2⟩
  · refine ⟨zones, zd, ?_, h2, le_refl _, le_refl _⟩
    simp only [update_counts]
    rw [alookup_aset_ne _ _ _ _ hc, cleanup_stale_buffers_data]
    cases hn : alookup camera_id s.data with
    | none =>
      simp only [hn, Option.isNone_none, if_true]
      rw [alookup_aset_ne _ _ _ _ hc]
      exact h1
    | some z0 =>
      simp only [hn, Option.isNone_some, Bool.false_eq_true, if_false]
      exact h1

theorem update_counts_monotone_witness :
    ∃ zones' zd',
      alookup "c" (update_counts defaultConfig
        ⟨[("c", [("z", ⟨(0, 0), (10, 10), 2, 1, [], []⟩)])],
         [("c", [("z", [])])], [("c", [("z", [])])], [("c", [("z", [])])],
         [("c", [("z", [])])]⟩ "c" [] 0).data = some zones' ∧
      alookup "z" zones' = some zd' ∧
      (2 : Nat) ≤ zd'.in_count ∧ (1 : Nat) ≤ zd'.out_count :=
  update_counts_monotone defaultConfig
    ⟨[("c", [("z", ⟨(0, 0), (10, 10), 2, 1, [], []⟩)])], [("c", [("z", [])])],
     [("c", [("z", [])])], [("c", [("z", [])])], [("c", [("z", [])])]⟩
    "c" [] 0 "c" "z" [("z", ⟨(0, 0), (10, 10), 2, 1, [], []⟩)]
    ⟨(0, 0), (10, 10), 2, 1, [], []⟩ rfl rfl

end ZoneCounter
